import Mathlib

/-!
Shallow embedding of `GLDOPPCapture` (RFGLDOPPCapture.cpp) from the RapidFire SDK.

The session object is modelled as an explicit record of its member fields.
Driver and OpenGL behaviour observed during a single call (current-context
presence, extension resolution, `wglDesktopTargetAMD` success, generated
object names, framebuffer-completeness results, event-creation success,
`WaitForMultipleObjects` outcome) is an environment record supplied to each
operation.  Operations return their result paired with the updated session
state; `processDesktop` and the destructor additionally return a trace of
the externally visible actions they performed, so that claims about
"no driver access" and teardown ordering can be stated.
-/

namespace DOPP

/-- Status codes of the RapidFire SDK that this translation unit returns
(`RF_STATUS_OK`, `RF_STATUS_OPENGL_FAIL`, `RF_STATUS_INVALID_DIMENSION`,
`RF_STATUS_DOPP_FAIL`, `RF_STATUS_INVALID_DESKTOP_ID`). -/
inductive RFStatus where
  | ok
  | openglFail
  | invalidDimension
  | doppFail
  | invalidDesktopId
  deriving DecidableEq, Repr

/-- Member fields of `GLDOPPCapture`.  `pFBO`/`pTexture` are `none` when the
C++ pointer is `nullptr` and `some names` when the array is allocated.
`hDesktopEvent0`/`hDesktopEvent1` record whether the corresponding event
handle is non-NULL.  `threadStarted` records whether `m_NotificationThread`
is joinable. -/
structure DOPPState where
  uiDesktopTexture : Nat
  uiDesktopId : Nat
  uiNumTargets : Nat
  uiDesktopWidth : Nat
  uiDesktopHeight : Nat
  uiPresentWidth : Nat
  uiPresentHeight : Nat
  hasShader : Bool
  uiBaseMap : Nat
  uiVertexBuffer : Nat
  uiVertexArray : Nat
  pFBO : Option (List Nat)
  pTexture : Option (List Nat)
  bTrackDesktopChanges : Bool
  bBlocking : Bool
  hDesktopEvent0 : Bool
  hDesktopEvent1 : Bool
  bDesktopChanged : Bool
  threadStarted : Bool
  deriving DecidableEq, Repr

/-- Driver / OpenGL behaviour observed during one call into the capture
session.  `fboName i` / `texName i` are the names produced for the i-th
object by `glGenFramebuffers` / `glGenTextures`; `framebufferComplete i`
is the result of `glCheckFramebufferStatus` for slot i; `waitResult` is
`dwResult - WAIT_OBJECT_0` of a `WaitForMultipleObjects` call on the event
pair (0 = desktop-changed event, 1 = unblock event). -/
structure DOPPEnv where
  hasGLContext : Bool
  extensionsResolve : Bool
  desktopTargetOk : Nat → Bool
  desktopTextureHandle : Nat
  desktopTexWidth : Nat
  desktopTexHeight : Nat
  shaderAllocOk : Bool
  shaderBuildOk : Bool
  baseMapLoc : Nat
  fboName : Nat → Nat
  texName : Nat → Nat
  framebufferComplete : Nat → Bool
  vertexArrayName : Nat
  vertexBufferName : Nat
  createDOPPEventOk : Bool
  waitResult : Nat

/-- Constructor `GLDOPPCapture(uiDesktop, pDrv)` on its successful path:
all handles zero, two render targets, tracking off, both events NULL,
changed flag false.  (The throwing paths — missing driver interface,
DOPP not enabled — abort construction and produce no object, so they are
not part of the state space.) -/
def construct (uiDesktop : Nat) : DOPPState :=
  { uiDesktopTexture := 0
    uiDesktopId := uiDesktop
    uiNumTargets := 2
    uiDesktopWidth := 0
    uiDesktopHeight := 0
    uiPresentWidth := 0
    uiPresentHeight := 0
    hasShader := false
    uiBaseMap := 0
    uiVertexBuffer := 0
    uiVertexArray := 0
    pFBO := none
    pTexture := none
    bTrackDesktopChanges := false
    bBlocking := false
    hDesktopEvent0 := false
    hDesktopEvent1 := false
    bDesktopChanged := false
    threadStarted := false }

/-- Model of `GLDOPPCapture::createRenderTargets`.  Fails if a pool already exists;
otherwise allocates both arrays, generates the names, sizes each texture to
the present dimensions, attaches it to its framebuffer and records whether
every framebuffer passed the completeness check.  The arrays stay allocated
even when the completeness check failed. -/
def createRenderTargets (env : DOPPEnv) (s : DOPPState) : Bool × DOPPState :=
  if s.pFBO.isSome || s.pTexture.isSome then
    (false, s)
  else
    let fbos := (List.range s.uiNumTargets).map env.fboName
    let texs := (List.range s.uiNumTargets).map env.texName
    let s1 := { s with pFBO := some fbos, pTexture := some texs }
    let bFBStatus := (List.range s.uiNumTargets).all (fun i => env.framebufferComplete i)
    (bFBStatus, s1)

/-- Model of `GLDOPPCapture::initEffect`: allocates the shader object and compiles
and links the two shader stages; on success it also queries the location of
the `baseMap` uniform. -/
def initEffect (env : DOPPEnv) (s : DOPPState) : Bool × DOPPState :=
  let s1 := { s with hasShader := env.shaderAllocOk }
  if env.shaderAllocOk = false then (false, s1)
  else if env.shaderBuildOk = false then (false, s1)
  else (true, { s1 with uiBaseMap := env.baseMapLoc })

/-- Model of `GLDOPPCapture::initDOPP(uiPresentWidth, uiPresentHeight, fRotation,
bTrackDesktopChanges, bBlocking)`.  The rotation argument only influences
the floating-point quad geometry built by `createQuad` and is not part of
the session fields modelled here; `createQuad` contributes the generated
vertex-array and vertex-buffer names. -/
def initDOPP (env : DOPPEnv) (s : DOPPState) (uiPresentWidth uiPresentHeight : Nat)
    (bTrackDesktopChanges bBlocking : Bool) : RFStatus × DOPPState :=
  if env.hasGLContext = false then
    (RFStatus.openglFail, s)
  else if uiPresentWidth = 0 ∨ uiPresentHeight = 0 then
    (RFStatus.invalidDimension, s)
  else
    let s1 := { s with uiPresentWidth := uiPresentWidth, uiPresentHeight := uiPresentHeight }
    if env.extensionsResolve = false then
      (RFStatus.doppFail, s1)
    else if env.desktopTargetOk s1.uiDesktopId = false then
      (RFStatus.invalidDesktopId, s1)
    else
      let s2 := { s1 with
                    uiDesktopTexture := env.desktopTextureHandle
                    uiDesktopWidth := env.desktopTexWidth
                    uiDesktopHeight := env.desktopTexHeight }
      let effectRes := initEffect env s2
      if effectRes.1 = false then
        (RFStatus.doppFail, effectRes.2)
      else
        let targetRes := createRenderTargets env effectRes.2
        if targetRes.1 = false then
          (RFStatus.doppFail, targetRes.2)
        else
          let s3 := { targetRes.2 with
                        uiVertexArray := env.vertexArrayName
                        uiVertexBuffer := env.vertexBufferName }
          let s4 := { s3 with
                        bTrackDesktopChanges := bTrackDesktopChanges
                        bBlocking := bBlocking }
          let s5 := if s4.bBlocking && !s4.bTrackDesktopChanges then
                      { s4 with bTrackDesktopChanges := true }
                    else s4
          let s6 :=
            if s5.bTrackDesktopChanges then
              if env.createDOPPEventOk then
                { s5 with hDesktopEvent0 := true, hDesktopEvent1 := true }
              else
                { s5 with bTrackDesktopChanges := false }
            else s5
          let s7 := if s6.bTrackDesktopChanges && !s6.bBlocking then
                      { s6 with threadStarted := true }
                    else s6
          (RFStatus.ok, s7)

/-- Model of `GLDOPPCapture::resizeDesktopTexture`.  Only the id-positive branch
talks to the driver; `glDeleteTextures` on the old handle touches only the
driver-side object, not the member holding the name, so on the
`wglDesktopTargetAMD` failure path every member keeps its old value. -/
def resizeDesktopTexture (env : DOPPEnv) (s : DOPPState) : RFStatus × DOPPState :=
  if 0 < s.uiDesktopId then
    if env.desktopTargetOk s.uiDesktopId = false then
      (RFStatus.invalidDesktopId, s)
    else
      (RFStatus.ok,
       { s with
           uiDesktopTexture := env.desktopTextureHandle
           uiDesktopWidth := env.desktopTexWidth
           uiDesktopHeight := env.desktopTexHeight })
  else
    (RFStatus.invalidDesktopId, s)

/-- Model of `GLDOPPCapture::resizePresentTexture(uiPresentWidth, uiPresentHeight)`:
tears down whatever pool exists, installs the new dimensions unvalidated,
and rebuilds via `createRenderTargets`. -/
def resizePresentTexture (env : DOPPEnv) (s : DOPPState)
    (uiPresentWidth uiPresentHeight : Nat) : RFStatus × DOPPState :=
  let s1 := if s.pTexture.isSome then { s with pTexture := none } else s
  let s2 := if s1.pFBO.isSome then { s1 with pFBO := none } else s1
  let s3 := { s2 with uiPresentWidth := uiPresentWidth, uiPresentHeight := uiPresentHeight }
  let res := createRenderTargets env s3
  if res.1 = false then (RFStatus.openglFail, res.2)
  else (RFStatus.ok, res.2)

/-- Externally visible actions of `processDesktop`: the
`WaitForMultipleObjects` call on the event pair, the `wglDesktopTargetAMD`
re-selection, and the composite block (bind FBO slot, draw the quad,
clear the changed flag, `glFinish`) under the global lock. -/
inductive DOPPAction where
  | waitOnEvents
  | driverDesktopTarget (id : Nat)
  | composite (slot : Nat)
  deriving DecidableEq, Repr

/-- Model of `GLDOPPCapture::processDesktop(idx)`.  The slot index is clamped to 0
when out of range; in tracked blocking mode an indefinite wait on the event
pair precedes the composite and signalling of the unblock event (slot 1 of
the pair) returns `false` without compositing; in tracked non-blocking mode
an unset changed flag returns `false` with no action at all; otherwise the
composite block runs, clears the changed flag, and the call returns `true`. -/
def processDesktop (env : DOPPEnv) (s : DOPPState) (idxArg : Nat) :
    Bool × DOPPState × List DOPPAction :=
  let idx := if s.uiNumTargets ≤ idxArg then 0 else idxArg
  if s.bTrackDesktopChanges then
    if s.bBlocking then
      if env.waitResult = 1 then
        (false, s, [DOPPAction.waitOnEvents])
      else
        (true, { s with bDesktopChanged := false },
         [DOPPAction.waitOnEvents, DOPPAction.driverDesktopTarget s.uiDesktopId,
          DOPPAction.composite idx])
    else if s.bDesktopChanged = false then
      (false, s, [])
    else
      (true, { s with bDesktopChanged := false },
       [DOPPAction.driverDesktopTarget s.uiDesktopId, DOPPAction.composite idx])
  else
    (true, { s with bDesktopChanged := false },
     [DOPPAction.driverDesktopTarget s.uiDesktopId, DOPPAction.composite idx])

/-- Model of `GLDOPPCapture::getFramebufferTex(idx)`: the slot's colour texture
name, or 0 when the index is out of range or the pool is not allocated. -/
def getFramebufferTex (s : DOPPState) (idx : Nat) : Nat :=
  if 0 < s.uiNumTargets ∧ idx < s.uiNumTargets ∧ s.pTexture.isSome then
    (s.pTexture.getD []).getD idx 0
  else 0

/-- Model of `GLDOPPCapture::releaseEvent`: signals the local unblock event, but
only in blocking mode; otherwise it is a no-op returning `false`. -/
def releaseEvent (s : DOPPState) : Bool :=
  if s.bBlocking then true else false

/-- Steps of `GLDOPPCapture::~GLDOPPCapture` in source order:
disable post-processing; with a live context delete the GL objects
(otherwise report the error); free the two heap arrays; clear the
tracking (liveness) flag; `SetEvent` on the desktop-changed event when it
exists; `CloseHandle` on the unblock event when it exists; join the
notification thread when it is joinable; finally `deleteDOPPEvent` on the
desktop-changed event when it exists. -/
inductive DtorAction where
  | disablePostProcess
  | deleteGLResources
  | reportNoContext
  | freeFBOArray
  | freeTextureArray
  | clearTrackFlag
  | signalDesktopEvent
  | closeUnblockEvent
  | joinThread
  | deleteDesktopEvent
  deriving DecidableEq, Repr

/-- Model of `GLDOPPCapture::~GLDOPPCapture` as the ordered trace of its teardown
actions plus the resulting field values. -/
def destructDOPP (env : DOPPEnv) (s : DOPPState) : List DtorAction × DOPPState :=
  let tr :=
    [DtorAction.disablePostProcess] ++
    (if env.hasGLContext then [DtorAction.deleteGLResources] else [DtorAction.reportNoContext]) ++
    (if s.pFBO.isSome then [DtorAction.freeFBOArray] else []) ++
    (if s.pTexture.isSome then [DtorAction.freeTextureArray] else []) ++
    [DtorAction.clearTrackFlag] ++
    (if s.hDesktopEvent0 then [DtorAction.signalDesktopEvent] else []) ++
    (if s.hDesktopEvent1 then [DtorAction.closeUnblockEvent] else []) ++
    (if s.threadStarted then [DtorAction.joinThread] else []) ++
    (if s.hDesktopEvent0 then [DtorAction.deleteDesktopEvent] else [])
  (tr,
   { s with
       pFBO := none
       pTexture := none
       bTrackDesktopChanges := false
       hDesktopEvent0 := false
       hDesktopEvent1 := false
       threadStarted := false })

/-- One iteration of `GLDOPPCapture::notificationLoop`: while the liveness
flag is set, wait on the event pair and set the shared changed flag when
the desktop-changed event (slot 0) is the one signalled. -/
def notificationStep (env : DOPPEnv) (s : DOPPState) : DOPPState :=
  if s.bTrackDesktopChanges then
    if env.waitResult = 0 then { s with bDesktopChanged := true } else s
  else s

/-- Environment in which every driver and GL interaction succeeds. -/
def envGood : DOPPEnv :=
  { hasGLContext := true
    extensionsResolve := true
    desktopTargetOk := fun _ => true
    desktopTextureHandle := 7
    desktopTexWidth := 1920
    desktopTexHeight := 1080
    shaderAllocOk := true
    shaderBuildOk := true
    baseMapLoc := 3
    fboName := fun i => i + 1
    texName := fun i => i + 10
    framebufferComplete := fun _ => true
    vertexArrayName := 5
    vertexBufferName := 6
    createDOPPEventOk := true
    waitResult := 0 }

/-- Environment with no current GL context. -/
def envNoCtx : DOPPEnv :=
  { envGood with hasGLContext := false }

/-- Environment in which every framebuffer fails the completeness check. -/
def envIncomplete : DOPPEnv :=
  { envGood with framebufferComplete := fun _ => false }

/-- Environment in which registering the desktop-change event fails. -/
def envNoEvent : DOPPEnv :=
  { envGood with createDOPPEventOk := false }

/-- Environment in which the desktop id can no longer be selected. -/
def envBadTarget : DOPPEnv :=
  { envGood with desktopTargetOk := fun _ => false }

/-- Environment in which the unblock event (index 1) is the event that
gets signalled during a wait. -/
def envUnblock : DOPPEnv :=
  { envGood with waitResult := 1 }

end DOPP

namespace DOPP

/-- Session state with tracking enabled in non-blocking (polling) mode and
the changed flag not set. -/
def sTrackedPolling : DOPPState :=
  { construct 1 with bTrackDesktopChanges := true, bBlocking := false,
                     hDesktopEvent0 := true, hDesktopEvent1 := true }

/-- Session state after a full tracked initialization: both events exist
and the notification thread has been started. -/
def sFullTeardown : DOPPState :=
  { construct 1 with bTrackDesktopChanges := true, bBlocking := false,
                     hDesktopEvent0 := true, hDesktopEvent1 := true,
                     threadStarted := true }

/-- C1: `processDesktop` composites and returns `true` exactly when the
tracking mode permits it: always when tracking is disabled; in tracked
non-blocking mode only when the shared changed flag is set (otherwise it
returns `false` with no composite and no driver access and the state
untouched); in tracked blocking mode it waits on the event pair and
returns `false` without compositing when the unblock event (index 1) is
the one signalled; and every successful composite clears the changed
flag. -/
theorem C1_processDesktop_gating (env : DOPPEnv) (s : DOPPState) (idx : Nat) :
    ((processDesktop env s idx).1 = true ↔
      ∃ i, DOPPAction.composite i ∈ (processDesktop env s idx).2.2) ∧
    (s.bTrackDesktopChanges = false → (processDesktop env s idx).1 = true) ∧
    (s.bTrackDesktopChanges = true → s.bBlocking = false → s.bDesktopChanged = false →
      processDesktop env s idx = (false, s, [])) ∧
    (s.bTrackDesktopChanges = true → s.bBlocking = false → s.bDesktopChanged = true →
      (processDesktop env s idx).1 = true) ∧
    (s.bTrackDesktopChanges = true → s.bBlocking = true → env.waitResult = 1 →
      processDesktop env s idx = (false, s, [DOPPAction.waitOnEvents])) ∧
    (s.bTrackDesktopChanges = true → s.bBlocking = true → env.waitResult ≠ 1 →
      (processDesktop env s idx).1 = true) ∧
    ((processDesktop env s idx).1 = true →
      (processDesktop env s idx).2.1.bDesktopChanged = false) := by
  unfold processDesktop
  rcases htrack : s.bTrackDesktopChanges <;> rcases hblock : s.bBlocking <;>
    rcases hchg : s.bDesktopChanged <;> by_cases hw : env.waitResult = 1 <;>
      simp [htrack, hblock, hchg, hw]

/-- Witness for C1 at a concrete tracked, non-blocking, unchanged state:
the call returns `false` with an empty action trace and no state change. -/
theorem C1_processDesktop_gating_witness :
    processDesktop envGood sTrackedPolling 0 = (false, sTrackedPolling, []) :=
  (C1_processDesktop_gating envGood sTrackedPolling 0).2.2.1 rfl rfl rfl

/-- C3: whenever `resizeDesktopTexture` fails with `InvalidDesktopId`, the
capture-texture handle and the desktop width/height — in fact the whole
session record — are unchanged. -/
theorem C3_resizeDesktopTexture_failure_preserves (env : DOPPEnv) (s : DOPPState)
    (h : (resizeDesktopTexture env s).1 = RFStatus.invalidDesktopId) :
    (resizeDesktopTexture env s).2.uiDesktopTexture = s.uiDesktopTexture ∧
    (resizeDesktopTexture env s).2.uiDesktopWidth = s.uiDesktopWidth ∧
    (resizeDesktopTexture env s).2.uiDesktopHeight = s.uiDesktopHeight ∧
    (resizeDesktopTexture env s).2 = s := by
  unfold resizeDesktopTexture at h ⊢
  by_cases hid : 0 < s.uiDesktopId <;>
    by_cases ht : env.desktopTargetOk s.uiDesktopId = false <;>
      simp [hid, ht] at h ⊢

/-- Witness for C3: a session on desktop id 1 whose id is no longer
selectable keeps all its fields. -/
theorem C3_resizeDesktopTexture_failure_preserves_witness :
    (resizeDesktopTexture envBadTarget (construct 1)).2 = construct 1 :=
  (C3_resizeDesktopTexture_failure_preserves envBadTarget (construct 1) rfl).2.2.2

/-- C8: a slot index at or above the target count is clamped to 0, so the
call behaves exactly as if slot 0 had been requested. -/
theorem C8_slot_index_clamped (env : DOPPEnv) (s : DOPPState) (idx : Nat)
    (h : s.uiNumTargets ≤ idx) :
    processDesktop env s idx = processDesktop env s 0 := by
  unfold processDesktop
  rw [if_pos h, ite_self]

/-- Witness for C8 at slot 5 of a two-target session. -/
theorem C8_slot_index_clamped_witness :
    processDesktop envGood (construct 1) 5 = processDesktop envGood (construct 1) 0 :=
  C8_slot_index_clamped envGood (construct 1) 5 (by decide)

/-- C10: a session constructed on desktop id 0 always gets
`InvalidDesktopId` back from `resizeDesktopTexture`, with no state change,
while `initDOPP` and `processDesktop` on the same id-0 session can
succeed. -/
theorem C10_id_zero_never_resizes (env : DOPPEnv) (s : DOPPState)
    (h : s.uiDesktopId = 0) :
    resizeDesktopTexture env s = (RFStatus.invalidDesktopId, s) ∧
    (initDOPP envGood (construct 0) 4 3 false false).1 = RFStatus.ok ∧
    (processDesktop envGood (initDOPP envGood (construct 0) 4 3 false false).2 0).1 = true := by
  refine ⟨?_, rfl, rfl⟩
  unfold resizeDesktopTexture
  simp [h]

/-- Witness for C10 on the freshly constructed id-0 session. -/
theorem C10_id_zero_never_resizes_witness :
    resizeDesktopTexture envGood (construct 0) = (RFStatus.invalidDesktopId, construct 0) :=
  (C10_id_zero_never_resizes envGood (construct 0) rfl).1

end DOPP

namespace DOPP

/-- C7: with both events live and the notification thread started, the
destructor's trace contains the five teardown steps in exactly the claimed
order — clear the liveness flag, signal the driver-change event (whatever
the blocking mode is), close the local unblock event, join the thread, and
only then delete the driver-change event — and the liveness flag ends up
cleared. -/
theorem C7_teardown_order (env : DOPPEnv) (s : DOPPState)
    (h0 : s.hDesktopEvent0 = true) (h1 : s.hDesktopEvent1 = true)
    (ht : s.threadStarted = true) :
    DtorAction.clearTrackFlag ∈ (destructDOPP env s).1 ∧
    DtorAction.signalDesktopEvent ∈ (destructDOPP env s).1 ∧
    DtorAction.closeUnblockEvent ∈ (destructDOPP env s).1 ∧
    DtorAction.joinThread ∈ (destructDOPP env s).1 ∧
    DtorAction.deleteDesktopEvent ∈ (destructDOPP env s).1 ∧
    (destructDOPP env s).1.indexOf DtorAction.clearTrackFlag <
      (destructDOPP env s).1.indexOf DtorAction.signalDesktopEvent ∧
    (destructDOPP env s).1.indexOf DtorAction.signalDesktopEvent <
      (destructDOPP env s).1.indexOf DtorAction.closeUnblockEvent ∧
    (destructDOPP env s).1.indexOf DtorAction.closeUnblockEvent <
      (destructDOPP env s).1.indexOf DtorAction.joinThread ∧
    (destructDOPP env s).1.indexOf DtorAction.joinThread <
      (destructDOPP env s).1.indexOf DtorAction.deleteDesktopEvent ∧
    (destructDOPP env s).2.bTrackDesktopChanges = false := by
  unfold destructDOPP
  rcases hc : env.hasGLContext <;>
    rcases hf : s.pFBO with _ | lf <;> rcases hp : s.pTexture with _ | lp <;>
      simp [h0, h1, ht, hc, hf, hp, List.indexOf_cons]

/-- Witness for C7 on a fully tracked session in the all-success
environment. -/
theorem C7_teardown_order_witness :
    DtorAction.signalDesktopEvent ∈ (destructDOPP envGood sFullTeardown).1 ∧
    (destructDOPP envGood sFullTeardown).1.indexOf DtorAction.joinThread <
      (destructDOPP envGood sFullTeardown).1.indexOf DtorAction.deleteDesktopEvent :=
  ⟨(C7_teardown_order envGood sFullTeardown rfl rfl rfl).2.1,
   (C7_teardown_order envGood sFullTeardown rfl rfl rfl).2.2.2.2.2.2.2.2.1⟩

/-- Counterexample to C2 as stated: on a completeness failure
`createRenderTargets` returns `false` but leaves the freshly allocated
pool in place — the texture array is allocated and slot 0 still hands out
a live handle, so the pool is not in the fully-empty state. -/
theorem C2_counterexample :
    (createRenderTargets envIncomplete (construct 1)).1 = false ∧
    (createRenderTargets envIncomplete (construct 1)).2.pTexture = some [10, 11] ∧
    getFramebufferTex (createRenderTargets envIncomplete (construct 1)).2 0 = 10 :=
  ⟨rfl, rfl, rfl⟩

/-- C2 as amended: `createRenderTargets` returns `false` if a pool already
exists (leaving the state untouched) or if any target fails the
completeness check; a build from the empty state always allocates both
arrays in lockstep with all N slots present (even when the completeness
check failed, so a failed build leaves a fully allocated pool, not an
empty one); the success flag is exactly "every slot passed the
completeness check"; pairedness of the two arrays is preserved; and
`resizePresentTexture` always ends with a fully allocated pool. -/
theorem C2_pool_allocation_amended (env : DOPPEnv) (s : DOPPState) :
    ((s.pFBO.isSome ∨ s.pTexture.isSome) → createRenderTargets env s = (false, s)) ∧
    (s.pFBO = none → s.pTexture = none →
      (createRenderTargets env s).2.pFBO =
        some ((List.range s.uiNumTargets).map env.fboName) ∧
      (createRenderTargets env s).2.pTexture =
        some ((List.range s.uiNumTargets).map env.texName) ∧
      ((createRenderTargets env s).2.pFBO.getD []).length = s.uiNumTargets ∧
      ((createRenderTargets env s).2.pTexture.getD []).length = s.uiNumTargets) ∧
    (s.pFBO = none → s.pTexture = none →
      ((createRenderTargets env s).1 = true ↔
        ∀ i, i < s.uiNumTargets → env.framebufferComplete i = true)) ∧
    ((s.pFBO.isSome ↔ s.pTexture.isSome) →
      ((createRenderTargets env s).2.pFBO.isSome ↔
       (createRenderTargets env s).2.pTexture.isSome)) ∧
    (∀ w h, (resizePresentTexture env s w h).2.pFBO =
        some ((List.range s.uiNumTargets).map env.fboName) ∧
      (resizePresentTexture env s w h).2.pTexture =
        some ((List.range s.uiNumTargets).map env.texName)) := by
  unfold resizePresentTexture createRenderTargets
  rcases hf : s.pFBO with _ | lf <;> rcases hp : s.pTexture with _ | lp <;>
    simp [hf, hp, List.all_eq_true]
  all_goals
    intro w h
    constructor <;> (split <;> rfl)

/-- Witness for C2's amended statement: building from the empty pool in the
all-success environment allocates both texture slots. -/
theorem C2_pool_allocation_amended_witness :
    (createRenderTargets envGood (construct 1)).2.pTexture = some [10, 11] :=
  (((C2_pool_allocation_amended envGood (construct 1)).2.1 rfl rfl).2.1).trans rfl

/-- Counterexample to C4 as stated: with no current GL context, `initDOPP`
with width 0 returns `OPENGL_FAIL`, not the invalid-dimension status. -/
theorem C4_counterexample :
    (initDOPP envNoCtx (construct 1) 0 5 false false).1 = RFStatus.openglFail ∧
    RFStatus.openglFail ≠ RFStatus.invalidDimension :=
  ⟨rfl, by decide⟩

/-- C4 as amended: when a current GL context is present, `initDOPP` with
presentWidth = 0 or presentHeight = 0 returns `InvalidDimension` and
modifies no field of the session (without a context the zero-dimension
call instead returns `OPENGL_FAIL`, also modifying nothing). -/
theorem C4_zero_dims_amended (env : DOPPEnv) (s : DOPPState) (w h : Nat)
    (track blocking : Bool)
    (hctx : env.hasGLContext = true) (hwh : w = 0 ∨ h = 0) :
    initDOPP env s w h track blocking = (RFStatus.invalidDimension, s) := by
  unfold initDOPP
  rcases hwh with hw | hh
  · simp [hctx, hw]
  · simp [hctx, hh]

/-- Witness for C4's amended statement at width 0. -/
theorem C4_zero_dims_amended_witness :
    initDOPP envGood (construct 1) 0 5 false false =
      (RFStatus.invalidDimension, construct 1) :=
  C4_zero_dims_amended envGood (construct 1) 0 5 false false rfl (Or.inl rfl)

end DOPP

namespace DOPP

/-- Characterization of a fully successful `initDOPP` call: resulting
status and full session record, for any requested tracking/blocking
combination. -/
theorem initDOPP_success_state (env : DOPPEnv) (s : DOPPState) (w h : Nat)
    (track blocking : Bool)
    (hctx : env.hasGLContext = true) (hw : w ≠ 0) (hh : h ≠ 0)
    (hext : env.extensionsResolve = true)
    (hid : env.desktopTargetOk s.uiDesktopId = true)
    (hsa : env.shaderAllocOk = true) (hsb : env.shaderBuildOk = true)
    (hfbo : s.pFBO = none) (htex : s.pTexture = none)
    (hcomplete : ∀ i, i < s.uiNumTargets → env.framebufferComplete i = true) :
    initDOPP env s w h track blocking =
      (RFStatus.ok,
       { s with
           uiPresentWidth := w
           uiPresentHeight := h
           uiDesktopTexture := env.desktopTextureHandle
           uiDesktopWidth := env.desktopTexWidth
           uiDesktopHeight := env.desktopTexHeight
           hasShader := true
           uiBaseMap := env.baseMapLoc
           pFBO := some ((List.range s.uiNumTargets).map env.fboName)
           pTexture := some ((List.range s.uiNumTargets).map env.texName)
           uiVertexArray := env.vertexArrayName
           uiVertexBuffer := env.vertexBufferName
           bTrackDesktopChanges := (track || blocking) && env.createDOPPEventOk
           bBlocking := blocking
           hDesktopEvent0 := s.hDesktopEvent0 || ((track || blocking) && env.createDOPPEventOk)
           hDesktopEvent1 := s.hDesktopEvent1 || ((track || blocking) && env.createDOPPEventOk)
           threadStarted := s.threadStarted ||
             ((track || blocking) && env.createDOPPEventOk && !blocking) }) := by
  unfold initDOPP initEffect createRenderTargets
  rcases track <;> rcases blocking <;> rcases hev : env.createDOPPEventOk <;>
    simp [hctx, hw, hh, hext, hid, hsa, hsb, hfbo, htex, hev,
          List.all_eq_true, List.mem_range, hcomplete] <;>
      exact hcomplete

/-- C5: under the hypotheses that let initialization reach the tracking
setup (valid context, positive dimensions, extensions resolved, desktop id
selectable, shader built, empty pool, complete framebuffers), the call
succeeds regardless of whether event registration succeeds; the resolved
tracking flag is "tracking or blocking was requested, and registration
succeeded" (so blocking without tracking silently enables tracking, and a
registration failure degrades to untracked while `initDOPP` still returns
OK); and the notification thread is started exactly when tracking resolved
to enabled and the mode is non-blocking. -/
theorem C5_tracking_resolution (env : DOPPEnv) (s : DOPPState) (w h : Nat)
    (track blocking : Bool)
    (hctx : env.hasGLContext = true) (hw : w ≠ 0) (hh : h ≠ 0)
    (hext : env.extensionsResolve = true)
    (hid : env.desktopTargetOk s.uiDesktopId = true)
    (hsa : env.shaderAllocOk = true) (hsb : env.shaderBuildOk = true)
    (hfbo : s.pFBO = none) (htex : s.pTexture = none)
    (hcomplete : ∀ i, i < s.uiNumTargets → env.framebufferComplete i = true) :
    (initDOPP env s w h track blocking).1 = RFStatus.ok ∧
    (initDOPP env s w h track blocking).2.bTrackDesktopChanges =
      ((track || blocking) && env.createDOPPEventOk) ∧
    (initDOPP env s w h track blocking).2.bBlocking = blocking ∧
    (initDOPP env s w h track blocking).2.threadStarted =
      (s.threadStarted || ((track || blocking) && env.createDOPPEventOk && !blocking)) := by
  rw [initDOPP_success_state env s w h track blocking
        hctx hw hh hext hid hsa hsb hfbo htex hcomplete]
  exact ⟨rfl, rfl, rfl, rfl⟩

/-- Witness for C5: requesting blocking without tracking in the
all-success environment yields OK, with tracking silently enabled and no
notification thread; requesting tracking when event registration fails
still yields OK, with tracking degraded to off. -/
theorem C5_tracking_resolution_witness :
    (initDOPP envGood (construct 1) 4 3 false true).1 = RFStatus.ok ∧
    (initDOPP envGood (construct 1) 4 3 false true).2.bTrackDesktopChanges = true ∧
    (initDOPP envGood (construct 1) 4 3 false true).2.threadStarted = false ∧
    (initDOPP envNoEvent (construct 1) 4 3 true false).1 = RFStatus.ok ∧
    (initDOPP envNoEvent (construct 1) 4 3 true false).2.bTrackDesktopChanges = false :=
  have h1 := C5_tracking_resolution envGood (construct 1) 4 3 false true
    rfl (by decide) (by decide) rfl rfl rfl rfl rfl rfl (fun i _ => rfl)
  have h2 := C5_tracking_resolution envNoEvent (construct 1) 4 3 true false
    rfl (by decide) (by decide) rfl rfl rfl rfl rfl rfl (fun i _ => rfl)
  ⟨h1.1, h1.2.1.trans rfl, h1.2.2.2.trans rfl, h2.1, h2.2.1.trans rfl⟩

end DOPP

namespace DOPP

/-- Element i of the default-0 read of a mapped range list. -/
theorem getD_range_map (f : Nat → Nat) (n i : Nat) (hi : i < n) :
    ((List.range n).map f).getD i 0 = f i := by
  simp [List.getD_eq_getElem?_getD, List.getElem?_map, List.getElem?_range, hi]

/-- C6 as amended: a successful `initDOPP` establishes positive present
dimensions, and `processDesktop`, `resizeDesktopTexture` and
`createRenderTargets` never change them; but `resizePresentTexture`
installs its arguments unvalidated, so the positivity invariant survives
it exactly when the new arguments are positive — zero arguments break
it. -/
theorem C6_present_dims_amended (env : DOPPEnv) (s : DOPPState) (w h idx w2 h2 : Nat)
    (track blocking : Bool)
    (hctx : env.hasGLContext = true) (hw : w ≠ 0) (hh : h ≠ 0)
    (hext : env.extensionsResolve = true)
    (hid : env.desktopTargetOk s.uiDesktopId = true)
    (hsa : env.shaderAllocOk = true) (hsb : env.shaderBuildOk = true)
    (hfbo : s.pFBO = none) (htex : s.pTexture = none)
    (hcomplete : ∀ i, i < s.uiNumTargets → env.framebufferComplete i = true) :
    ((initDOPP env s w h track blocking).1 = RFStatus.ok ∧
      0 < (initDOPP env s w h track blocking).2.uiPresentWidth ∧
      0 < (initDOPP env s w h track blocking).2.uiPresentHeight) ∧
    ((processDesktop env s idx).2.1.uiPresentWidth = s.uiPresentWidth ∧
     (processDesktop env s idx).2.1.uiPresentHeight = s.uiPresentHeight) ∧
    ((resizeDesktopTexture env s).2.uiPresentWidth = s.uiPresentWidth ∧
     (resizeDesktopTexture env s).2.uiPresentHeight = s.uiPresentHeight) ∧
    ((createRenderTargets env s).2.uiPresentWidth = s.uiPresentWidth ∧
     (createRenderTargets env s).2.uiPresentHeight = s.uiPresentHeight) ∧
    ((resizePresentTexture env s w2 h2).2.uiPresentWidth = w2 ∧
     (resizePresentTexture env s w2 h2).2.uiPresentHeight = h2) := by
  refine ⟨?_, ?_, ?_, ?_, ?_⟩
  · rw [initDOPP_success_state env s w h track blocking
          hctx hw hh hext hid hsa hsb hfbo htex hcomplete]
    exact ⟨rfl, Nat.pos_of_ne_zero hw, Nat.pos_of_ne_zero hh⟩
  · unfold processDesktop
    rcases htr : s.bTrackDesktopChanges <;> rcases hbl : s.bBlocking <;>
      rcases hch : s.bDesktopChanged <;> by_cases hwr : env.waitResult = 1 <;>
        simp [htr, hbl, hch, hwr]
  · unfold resizeDesktopTexture
    by_cases hdid : 0 < s.uiDesktopId <;>
      by_cases ht : env.desktopTargetOk s.uiDesktopId = false <;> simp [hdid, ht]
  · unfold createRenderTargets
    simp [hfbo, htex]
  · unfold resizePresentTexture createRenderTargets
    simp [hfbo, htex]
    constructor <;> (split <;> rfl)

/-- Witness for C6's amended statement: a successful concrete
initialization has positive present width and height, and a zero-argument
present-resize on the same session records width 0. -/
theorem C6_present_dims_amended_witness :
    0 < (initDOPP envGood (construct 1) 4 3 false false).2.uiPresentWidth ∧
    (resizePresentTexture envGood (construct 1) 0 0).2.uiPresentWidth = 0 :=
  have hc := C6_present_dims_amended envGood (construct 1) 4 3 0 0 0 false false
    rfl (by decide) (by decide) rfl rfl rfl rfl rfl rfl (fun i _ => rfl)
  ⟨hc.1.2.1, hc.2.2.2.2.1⟩

/-- Counterexample to C6 as stated: after a successful initialization at
4x3, `resizePresentTexture` with zero arguments leaves the session with
present width 0 — the positivity invariant is not preserved by every
subsequent operation. -/
theorem C6_counterexample :
    (initDOPP envGood (construct 1) 4 3 false false).1 = RFStatus.ok ∧
    0 < (initDOPP envGood (construct 1) 4 3 false false).2.uiPresentWidth ∧
    (resizePresentTexture envGood
        (initDOPP envGood (construct 1) 4 3 false false).2 0 0).2.uiPresentWidth = 0 :=
  ⟨rfl, by decide, rfl⟩

end DOPP

namespace DOPP

/-- C9: after a successful initialization (with the generated texture
names pairwise distinct and nonzero, as `glGenTextures` guarantees),
`getFramebufferTex` returns the per-slot generated handle — nonzero and
pairwise distinct — for every slot below the target count, and 0 for any
out-of-range slot or whenever the pool is not allocated. -/
theorem C9_distinct_valid_handles (env : DOPPEnv) (s : DOPPState) (w h : Nat)
    (track blocking : Bool)
    (hctx : env.hasGLContext = true) (hw : w ≠ 0) (hh : h ≠ 0)
    (hext : env.extensionsResolve = true)
    (hid : env.desktopTargetOk s.uiDesktopId = true)
    (hsa : env.shaderAllocOk = true) (hsb : env.shaderBuildOk = true)
    (hfbo : s.pFBO = none) (htex : s.pTexture = none)
    (hcomplete : ∀ i, i < s.uiNumTargets → env.framebufferComplete i = true)
    (hnz : ∀ i, i < s.uiNumTargets → env.texName i ≠ 0)
    (hinj : ∀ i, i < s.uiNumTargets → ∀ j, j < s.uiNumTargets → i ≠ j →
      env.texName i ≠ env.texName j) :
    (∀ i, i < s.uiNumTargets →
      getFramebufferTex (initDOPP env s w h track blocking).2 i = env.texName i ∧
      getFramebufferTex (initDOPP env s w h track blocking).2 i ≠ 0) ∧
    (∀ i, i < s.uiNumTargets → ∀ j, j < s.uiNumTargets → i ≠ j →
      getFramebufferTex (initDOPP env s w h track blocking).2 i ≠
      getFramebufferTex (initDOPP env s w h track blocking).2 j) ∧
    (∀ i, s.uiNumTargets ≤ i →
      getFramebufferTex (initDOPP env s w h track blocking).2 i = 0) ∧
    (∀ (t : DOPPState) (i : Nat), t.pTexture = none → getFramebufferTex t i = 0) := by
  rw [initDOPP_success_state env s w h track blocking
        hctx hw hh hext hid hsa hsb hfbo htex hcomplete]
  refine ⟨?_, ?_, ?_, ?_⟩
  · intro i hi
    have hpos : 0 < s.uiNumTargets := Nat.lt_of_le_of_lt (Nat.zero_le i) hi
    constructor
    · simp [getFramebufferTex, hi, hpos, getD_range_map _ _ _ hi]
    · simp [getFramebufferTex, hi, hpos, getD_range_map _ _ _ hi]
      exact hnz i hi
  · intro i hi j hj hij
    have hpos : 0 < s.uiNumTargets := Nat.lt_of_le_of_lt (Nat.zero_le i) hi
    simp [getFramebufferTex, hi, hj, hpos,
          getD_range_map _ _ _ hi, getD_range_map _ _ _ hj]
    exact hinj i hi j hj hij
  · intro i hi
    simp [getFramebufferTex, Nat.not_lt.mpr hi]
  · intro t i ht
    simp [getFramebufferTex, ht]

/-- Witness for C9: the two slots of a concrete initialized session hand
out the distinct handles 10 and 11, and slot 2 is out of range. -/
theorem C9_distinct_valid_handles_witness :
    getFramebufferTex (initDOPP envGood (construct 1) 4 3 false false).2 0 = 10 ∧
    getFramebufferTex (initDOPP envGood (construct 1) 4 3 false false).2 1 = 11 ∧
    getFramebufferTex (initDOPP envGood (construct 1) 4 3 false false).2 2 = 0 :=
  have hc := C9_distinct_valid_handles envGood (construct 1) 4 3 false false
    rfl (by decide) (by decide) rfl rfl rfl rfl rfl rfl (fun i _ => rfl)
    (fun i _ => by simp [envGood])
    (fun i hi j hj hij => by simp only [envGood]; omega)
  ⟨(hc.1 0 (by decide)).1.trans rfl, (hc.1 1 (by decide)).1.trans rfl,
   hc.2.2.1 2 (by decide)⟩

end DOPP
